import Mathlib

/-
  Verification of the marker-clustering map library
  (angular-googly-mapulous).

  Shallow embedding of the relevant parts of:
    - src/lib/Cluster.js   (the copy in src/unnamed/part_002, which the
      claims cite; it deep-copies both `state` and `events` per instance)
    - src/lib/Marker.js
    - src/lib/GoogleMap.js

  Conventions used throughout:
    - geographic coordinates are rationals (the JS numbers of interest in
      the claims are exact decimals);
    - the external geodesic distance function
      google.maps.geometry.spherical.computeDistanceBetween is modelled as
      an abstract parameter `dist : LatLng → LatLng → ℚ`;
    - JS truthiness of a number is `≠ 0`, of an object/array `true`,
      of `null`/`undefined` `false`; absence of a value is `Option.none`.
-/

namespace Mapulous

/-- A geographic position, as held by a google.maps.LatLng. -/
structure LatLng where
  lat : ℚ
  lng : ℚ
deriving DecidableEq, Repr

/-- The part of a Marker object that the clustering pipeline reads:
its identity, the widget position `state.marker.getPosition()`, and the
`state.visible` flag read by `Marker.prototype.isVisible`. -/
structure CMarker where
  id : ℕ
  pos : LatLng
  visible : Bool
deriving DecidableEq, Repr

/-- Cluster.prototype.findMarkerNeighbors (part_002 lines 488-510).
The JS loop walks the scratch array from the last index down to 0,
pushing each marker within `d` of `m` onto the group and splicing it out
of scratch.  Because the walk is backwards, splicing never disturbs the
indices still to be visited, so the collected neighbors are exactly the
matching elements in reverse scratch order, and the remaining scratch
keeps its original relative order.  Returns (group, remaining scratch).
The distance is computed as dist(m.position, scratch[i].position). -/
def findMarkerNeighbors (dist : LatLng → LatLng → ℚ) (m : CMarker) (d : ℚ)
    (scratch : List CMarker) : List CMarker × List CMarker :=
  (m :: (scratch.filter (fun x => decide (dist m.pos x.pos ≤ d))).reverse,
   scratch.filter (fun x => ! decide (dist m.pos x.pos ≤ d)))

/-- Cluster.prototype.findMarkerGroups (part_002 lines 459-476).
`scratch.pop()` removes and returns the LAST array element, i.e. the
`getLast?` of the list, leaving `dropLast`.  The JS recursion continues
while more than one marker remains in scratch; a single leftover marker
becomes its own group of one.  `grouped` is the accumulator array the JS
code mutates in place and finally returns. -/
def findMarkerGroups (dist : LatLng → LatLng → ℚ) (d : ℚ)
    (scratch : List CMarker) (grouped : List (List CMarker)) :
    List (List CMarker) :=
  match hs : scratch.getLast? with
  | none => grouped
  | some seed =>
    let pr := findMarkerNeighbors dist seed d scratch.dropLast
    if 1 < pr.2.length then
      findMarkerGroups dist d pr.2 (grouped ++ [pr.1])
    else if pr.2.length = 1 then
      (grouped ++ [pr.1]) ++ [pr.2]
    else
      grouped ++ [pr.1]
termination_by scratch.length
decreasing_by
  simp only [findMarkerNeighbors]
  have hne : scratch ≠ [] := by
    intro h
    rw [h] at hs
    simp at hs
  have h2 := List.length_filter_le
    (fun x => ! decide (dist seed.pos x.pos ≤ d)) scratch.dropLast
  rw [List.length_dropLast] at h2
  have h3 : 0 < scratch.length := List.length_pos.mpr hne
  omega

/-- A formatted marker group as produced by Cluster.prototype.group:
the member markers plus their centroid (arithmetic mean of member
latitudes and longitudes).  The JS code only sets `formatted.centroid`
when the group is non-empty, hence the Option. -/
structure FGroup where
  markers : List CMarker
  centroid : Option LatLng
deriving DecidableEq, Repr

/-- The formatting step inside Cluster.prototype.group (part_002 lines
415-437): wrap a raw group with its centroid.  (The `formatted.data`
bookkeeping is omitted: no claim mentions marker user data.) -/
def formatGroup (g : List CMarker) : FGroup :=
  { markers := g
    centroid :=
      if g.length ≠ 0 then
        some ⟨(g.map fun m => m.pos.lat).sum / g.length,
              (g.map fun m => m.pos.lng).sum / g.length⟩
      else none }

/-- Cluster.prototype.group (part_002 lines 400-448).  Guard
`markers && markers.length && distance`: a passed array is always truthy,
its length must be nonzero, and the number `distance` is truthy iff
nonzero.  On guard failure the JS logs via errors.group and returns
undefined; when no groups were built it returns null — both are "no
groups here", modelled as `none`. -/
def groupJS (dist : LatLng → LatLng → ℚ) (markers : List CMarker) (d : ℚ) :
    Option (List FGroup) :=
  if markers.length ≠ 0 ∧ d ≠ 0 then
    let grouped := findMarkerGroups dist d markers []
    if grouped.length ≠ 0 then some (grouped.map formatGroup) else none
  else none

/-- The grouping stage of Cluster.prototype.clusterMarkers (part_002
lines 190-207): restrict the master list to currently visible markers,
and run `group` on them only when some are visible.  Yields the list of
formatted groups the rest of clusterMarkers iterates over ([] when the
pass renders nothing). -/
def clusterGroupsJS (dist : LatLng → LatLng → ℚ) (master : List CMarker)
    (d : ℚ) : List FGroup :=
  let visible := master.filter fun m => m.visible
  if visible.length ≠ 0 then (groupJS dist visible d).getD [] else []

/-- The part of GoogleMap state that zoom touches: whether the widget
map object exists (state.map) and its current zoom level. -/
structure ZoomState where
  widget : Bool
  widgetZoom : ℤ
deriving DecidableEq, Repr

/-- The console.error messages the body of errors.zoom mentions
(GoogleMap.js lines 551-561). -/
inductive ZoomLog where
  | noMap
  | invalidZoom
  | rangeError
deriving DecidableEq, Repr

/-- The errors sub-object of GoogleMap.prototype (lines 503-562) holds
only functions; neither it nor its prototype chain has a `state`
property, so when one of its methods runs with `this` bound to it — as
in the call `this.errors.zoom( zoom )` — the read of `this.state`
yields undefined. -/
def errorsObjectState : Option ZoomState := none

/-- GoogleMap.prototype.errors.zoom (lines 551-561) as actually invoked
via `this.errors.zoom( zoom )`: inside, `this` is the errors object, so
the very first check `! this.state.map` dereferences
errorsObjectState — reading `.map` off undefined throws a TypeError
(Except.error) before any console.error can run.  The body's three
logs, kept here in source order, are reachable only were a state
present. -/
def errorsZoomJS (z : ℤ) : Except Unit (List ZoomLog) :=
  match errorsObjectState with
  | none => Except.error ()
  | some st =>
    Except.ok
      ((if st.widget = false then [ZoomLog.noMap] else []) ++
       (if z = 0 then [ZoomLog.invalidZoom] else []) ++
       (if z < 0 ∨ 21 < z then [ZoomLog.rangeError] else []))

/-- GoogleMap.prototype.zoom (lines 324-330).  The guard is
`this.state.map && zoom && zoom >= 0 && zoom <= 22`; note the bare
number-truthiness test `zoom`, which rejects level 0, and the upper
bound 22.  On the guard the widget zoom is set and nothing is logged or
thrown; otherwise this.errors.zoom(zoom) runs, which throws.  Returns
the state as of return or throw (the widget zoom untouched on the
rejection path) and the rejection path's outcome. -/
def zoomJS (st : ZoomState) (z : ℤ) : ZoomState × Except Unit (List ZoomLog) :=
  if st.widget = true ∧ z ≠ 0 ∧ 0 ≤ z ∧ z ≤ 22 then
    ({ st with widgetZoom := z }, Except.ok [])
  else
    (st, errorsZoomJS z)

/-- The loop inside GoogleMap.prototype.removeMarker (lines 142-164):
`for (var i = this.state.markers.length; i > 0; i--)` — the loop body
runs for i = length, length-1, ..., 1.  Index `length` reads undefined,
which never equals a Marker object, and index 0 is never inspected.  On
the first identity match the marker is detached, spliced out, and true
returned; otherwise the loop falls through to `return false`.  The
argument ℕ is the current value of the loop counter i; markers are
identified by id. -/
def removeMarkerLoop (markers : List ℕ) (target : ℕ) : ℕ → Bool × List ℕ
  | 0 => (false, markers)
  | i + 1 =>
    if markers.get? (i + 1) = some target then
      (true, markers.eraseIdx (i + 1))
    else
      removeMarkerLoop markers target i

/-- GoogleMap.prototype.removeMarker, for a call whose argument is an
actual Marker object (the outer `if (marker)` guard passes).  Returns
the success flag and the updated authoritative marker list
(this.state.markers). -/
def removeMarkerJS (markers : List ℕ) (target : ℕ) : Bool × List ℕ :=
  removeMarkerLoop markers target markers.length

/-- A JS value held in (or passed to) the cluster master list: a
constructed Marker object, or an array of Marker objects.  Marker
objects have no `length` property (undefined, falsy); an array's
`length` is truthy iff nonzero.  Both are truthy as objects. -/
inductive JVal where
  | marker (id : ℕ)
  | arr (elems : List ℕ)
deriving DecidableEq, Repr

/-- Cluster.prototype.addMarkers (part_002 lines 298-315), master-list
effect for a truthy argument.  `if (markers.length)` pushes each array
element; the else branch — meant for a single Marker — pushes the
argument itself, which for an EMPTY array pushes the empty array onto
the master marker list.  (The trailing clusterMarkers() call is the
pipeline modelled by clusterGroupsJS/clusterDisplayJS.) -/
def clusterAddMarkersJS (master : List JVal) (v : JVal) : List JVal :=
  match v with
  | .arr l => if l.length ≠ 0 then master ++ l.map JVal.marker else master ++ [v]
  | .marker _ => master ++ [v]

/-- Cluster.prototype.removeMarker (part_002 lines 336-342): indexOf on
the master list (identity comparison) and splice of the matched index —
i.e. erase the first occurrence, no-op when absent. -/
def clusterRemoveMarkerJS (master : List JVal) (m : JVal) : List JVal :=
  master.erase m

/-- Cluster.prototype.removeMarkers (part_002 lines 322-334),
master-list effect: guarded on a set map and a non-empty master list,
remove each passed marker, then re-run clusterMarkers. -/
def clusterRemoveMarkersJS (mapSet : Bool) (master : List JVal)
    (toRemove : List JVal) : List JVal :=
  if mapSet = true ∧ master ≠ [] then
    toRemove.foldl clusterRemoveMarkerJS master
  else master

/-- The marker fields read by fitBounds and the zoom listener:
visibility and whether the marker's infobox is currently open. -/
structure PMarker where
  visible : Bool
  infoboxOpen : Bool
deriving DecidableEq, Repr

/-- The GoogleMap fields involved in bounds fitting.  fitBounds writes
`this.state.fittingBounds` (GoogleMap.js line 362); the internal
listeners read and write `this.fittingBounds` (lines 394 and 400), a
property directly on the GoogleMap instance that no other code ever
assigns — it reads as undefined, i.e. falsy, until the first
bounds_changed event sets it to false. -/
structure FitState where
  markers : List PMarker
  stateFittingBounds : Bool
  instFittingBounds : Bool
deriving DecidableEq, Repr

/-- GoogleMap.prototype.fitBounds (lines 349-374) called without an
explicit marker list: defaults to this.state.markers; when at least one
is visible, sets this.state.fittingBounds = true and then calls the
widget fitBounds (which touches no modelled field). -/
def fitBoundsJS (g : FitState) : FitState :=
  if g.markers ≠ [] ∧ g.markers.filter (fun m => m.visible) ≠ [] then
    { g with stateFittingBounds := true }
  else g

/-- GoogleMap.prototype.closeInfoboxes (lines 335-341): close every
tracked marker's infobox. -/
def closeInfoboxesJS (g : FitState) : FitState :=
  { g with markers := g.markers.map fun m => { m with infoboxOpen := false } }

/-- The debounced zoom_changed handler installed by bindInternalEvents
(lines 397-403): close all infoboxes unless `this.fittingBounds` is
set — note it consults the instance property, not state.fittingBounds. -/
def zoomChangedHandlerJS (g : FitState) : FitState :=
  if g.instFittingBounds = false then closeInfoboxesJS g else g

/-- The bounds_changed handler installed by bindInternalEvents (lines
393-395): `this.fittingBounds = false`. -/
def boundsChangedHandlerJS (g : FitState) : FitState :=
  { g with instFittingBounds := false }

/-- The Marker fields touched by show/hide: state.map (the attachedMap
back-reference, holding the id of the owning GoogleMap), the widget
marker's own map attachment (what state.marker.setMap sets; attaching
to map mp attaches the widget marker to mp's widget map), and
state.visible. -/
structure VMarker where
  attachedMap : Option ℕ
  widgetMap : Option ℕ
  visible : Bool
deriving DecidableEq, Repr

/-- Marker.prototype.hide (lines 277-280): setMap(null) and
visible = false; state.map is untouched. -/
def hideJS (m : VMarker) : VMarker :=
  { m with widgetMap := none, visible := false }

/-- Marker.prototype.show (lines 266-271): only when state.map is still
set, re-attach the widget marker to that map's widget map and set
visible = true; otherwise do nothing. -/
def showJS (m : VMarker) : VMarker :=
  match m.attachedMap with
  | some mp => { m with widgetMap := some mp, visible := true }
  | none => m

/-- Truthiness of an optional JS number: present and nonzero. -/
def truthyNum : Option ℚ → Bool
  | none => false
  | some x => decide (x ≠ 0)

/-- The console.error messages Marker.prototype.errors.init can log
(Marker.js lines 443-459). -/
inductive MarkerInitLog where
  | apiNotLoaded
  | infoboxMissing
  | markerWithLabelMissing
  | invalidLatLng
deriving DecidableEq, Repr

/-- Marker.prototype.errors.init (lines 443-459): one log per failed
presence check, in source order.  The external library presence flags
are passed as parameters. -/
def markerErrorsInit (googleLoaded infoboxLoaded labelLoaded : Bool)
    (lat lng : Option ℚ) : List MarkerInitLog :=
  (if googleLoaded = false then [MarkerInitLog.apiNotLoaded] else []) ++
  (if infoboxLoaded = false then [MarkerInitLog.infoboxMissing] else []) ++
  (if labelLoaded = false then [MarkerInitLog.markerWithLabelMissing] else []) ++
  (if truthyNum lat = false ∨ truthyNum lng = false then
    [MarkerInitLog.invalidLatLng] else [])

/-- The successfully constructed marker's position (Marker.js: the
fields no claim consults — icon, label, options, data — are omitted). -/
structure NewMarker where
  lat : ℚ
  lng : ℚ
deriving DecidableEq, Repr

/-- What a `new Marker(...)` expression hands its caller: the
constructed marker when the body completed, or — because ECMAScript
`new` discards a constructor's null (non-object) return value and
substitutes the allocated `this` — a partially built object on the
failure path: its `state` is still the shared prototype state and its
widget marker was never created.  The caller never receives null. -/
inductive MarkerNewResult where
  | marker (m : NewMarker)
  | brokenObject
deriving DecidableEq, Repr

/-- `new Marker(lat, lng, ...)` (Marker.js lines 25-91) under `new`
semantics: on the guard `google && google.maps && lat && lng` the body
builds the marker; otherwise it calls errors.init — console logging
only (Marker.prototype.errors.init reads just its own parameters, so it
logs and throws nothing) — and its `return null` is then discarded by
`new`, leaving the caller with the partially built `this`. -/
def markerNewJS (googleLoaded infoboxLoaded labelLoaded : Bool)
    (lat lng : Option ℚ) : MarkerNewResult × List MarkerInitLog :=
  if googleLoaded = true ∧ truthyNum lat = true ∧ truthyNum lng = true then
    (.marker ⟨lat.getD 0, lng.getD 0⟩, [])
  else
    (.brokenObject, markerErrorsInit googleLoaded infoboxLoaded labelLoaded lat lng)

/-- What a `new Cluster(...)` expression hands its caller (part_002
lines 20-50), under the same `new` semantics. -/
inductive ClusterNewResult where
  | cluster
  | brokenObject
deriving DecidableEq, Repr

/-- `new Cluster(...)`: with the geometry library absent, errors.init
logs (it consults only the google global) and the body's `return null`
is again discarded by `new`.  The Bool records whether an error was
logged. -/
def clusterNewJS (geometryLoaded : Bool) : ClusterNewResult × Bool :=
  if geometryLoaded = true then (.cluster, false) else (.brokenObject, true)

/-- The cluster zoom→distance mapping: numeric zoom keys plus the
`default` key, mirroring Cluster.prototype.config.clusterMapping. -/
structure ClusterMapping where
  table : List (ℤ × ℚ)
  dflt : ℚ
deriving DecidableEq, Repr

/-- The shipped Cluster.prototype.config.clusterMapping (part_002 lines
562-574). -/
def defaultClusterMapping : ClusterMapping :=
  ⟨[(8, 6000), (9, 4500), (10, 3000), (11, 2500), (12, 1500), (13, 1500),
    (14, 1000), (15, 800)], 10000⟩

/-- JS property assignment into the mapping object: overwrite the entry
for an existing key, else add the key. -/
def setKey : List (ℤ × ℚ) → ℤ → ℚ → List (ℤ × ℚ)
  | [], k, v => [(k, v)]
  | (k0, v0) :: t, k, v =>
    if k0 = k then (k, v) :: t else (k0, v0) :: setKey t k v

/-- Cluster.prototype.setClusterZoomMapping (part_002 lines 549-557):
roll each passed numeric level into the config mapping; an empty
mapping object only logs an error. -/
def setClusterZoomMappingJS (c : ClusterMapping) (m : List (ℤ × ℚ)) :
    ClusterMapping :=
  if m.length ≠ 0 then
    { c with table := m.foldl (fun acc kv => setKey acc kv.1 kv.2) c.table }
  else c

/-- Cluster.prototype.getGroupingDistance (part_002 lines 521-527):
`zoomMapping[mapZoom] ? zoomMapping[mapZoom] : zoomMapping.default`,
then `groupDistance ? groupDistance : 0` — both are value-truthiness
tests, so a stored 0 falls through to the default and then to 0. -/
def getGroupingDistanceJS (c : ClusterMapping) (zoom : ℤ) : ℚ :=
  let groupDistance :=
    match c.table.lookup zoom with
    | some g => if g ≠ 0 then g else c.dflt
    | none => c.dflt
  if groupDistance ≠ 0 then groupDistance else 0

/-- A Cluster instance as the constructor builds it (part_002 lines
20-50): `this.state` and `this.events` are replaced by per-instance
deep copies, but `this.config` is not — config reads and writes resolve
through the prototype chain to the single shared
Cluster.prototype.config. -/
structure ClusterInst where
  stateMarkers : List ℕ
deriving DecidableEq, Repr

/-- A running program with several Cluster instances: the one shared
prototype config plus the per-instance deep-copied states. -/
structure ClusterSystem where
  config : ClusterMapping
  insts : List ClusterInst
deriving DecidableEq, Repr

/-- setClusterZoomMapping invoked on instance i: `this.config` resolves
through the prototype chain to the shared config, so the write lands
there whatever i is. -/
def instSetClusterZoomMapping (sys : ClusterSystem) (_i : ℕ)
    (m : List (ℤ × ℚ)) : ClusterSystem :=
  { sys with config := setClusterZoomMappingJS sys.config m }

/-- getGroupingDistance invoked on instance j with an explicit zoom
argument: reads the shared config. -/
def instGetGroupingDistance (sys : ClusterSystem) (_j : ℕ) (zoom : ℤ) : ℚ :=
  getGroupingDistanceJS sys.config zoom

/-- The GoogleMap bookkeeping relevant to removal: the authoritative
list this.state.markers (GoogleMap.js line 489), markers by id. -/
structure GMapRemState where
  stateMarkers : List ℕ
deriving DecidableEq, Repr

/-- The `map.markers` access in Marker.prototype.remove (line 246):
neither the GoogleMap instance nor its prototype defines a property
named `markers` (the list lives at map.state.markers), so the access
yields undefined for every map. -/
def googleMapMarkersProp (_g : GMapRemState) : Option (List ℕ) := none

/-- A marker as seen by Marker.prototype.remove: its id, whether
state.map points at the owning map, and whether the widget marker is
attached to a map. -/
structure RMarker where
  id : ℕ
  attachedMap : Bool
  widgetMap : Bool
deriving DecidableEq, Repr

/-- Marker.prototype.remove (lines 244-260).  The bookkeeping guard is
`this.state.map && this.state.map.markers && this.state.map.markers.length`;
`map.markers` is undefined (googleMapMarkersProp), so the branch never
runs — and even its body only splices that same nonexistent map.markers
array, never map.state.markers.  Afterwards the widget marker is
detached and state.map nulled. -/
def markerRemoveJS (g : GMapRemState) (m : RMarker) : GMapRemState × RMarker :=
  (if m.attachedMap = true ∧ (googleMapMarkersProp g).getD [] ≠ [] then
    { g with stateMarkers := g.stateMarkers }
   else g,
   { m with widgetMap := false, attachedMap := false })

/-- The Cluster fields clearMarkers touches, plus the owning map's
authoritative marker list. -/
structure ClearState where
  mapSet : Bool
  currentMarkers : List RMarker
  gmap : GMapRemState
deriving DecidableEq, Repr

/-- Cluster.prototype.clearMarkers (part_002 lines 348-362): when a map
is set and display markers exist, call marker.remove() on each and then
empty currentMarkers; the master list is never touched. -/
def clusterClearMarkersJS (st : ClearState) : ClearState :=
  if st.mapSet = true ∧ st.currentMarkers ≠ [] then
    { st with
        gmap := st.currentMarkers.foldl (fun g m => (markerRemoveJS g m).1) st.gmap,
        currentMarkers := [] }
  else st

/-- The two halves of findMarkerNeighbors cover the seed and the scratch
list exactly once each. -/
lemma findMarkerNeighbors_perm (dist : LatLng → LatLng → ℚ) (m : CMarker)
    (d : ℚ) (scratch : List CMarker) :
    List.Perm
      ((findMarkerNeighbors dist m d scratch).1 ++
        (findMarkerNeighbors dist m d scratch).2)
      (m :: scratch) := by
  simp only [findMarkerNeighbors, List.cons_append]
  refine List.Perm.cons m ?_
  refine List.Perm.trans
    (List.Perm.append (List.reverse_perm _) (List.Perm.refl _)) ?_
  exact List.filter_append_perm _ scratch

/-- Unfolding findMarkerGroups on an exhausted scratch list. -/
lemma findMarkerGroups_eq_nil (dist : LatLng → LatLng → ℚ) (d : ℚ)
    (scratch : List CMarker) (grouped : List (List CMarker))
    (hs : scratch.getLast? = none) :
    findMarkerGroups dist d scratch grouped = grouped := by
  have : scratch = [] := List.getLast?_eq_none_iff.mp hs
  subst this
  rw [findMarkerGroups]
  rfl

/-- Unfolding findMarkerGroups one popped seed at a time. -/
lemma findMarkerGroups_eq_cons (dist : LatLng → LatLng → ℚ) (d : ℚ)
    (scratch : List CMarker) (grouped : List (List CMarker)) (seed : CMarker)
    (hs : scratch.getLast? = some seed) :
    findMarkerGroups dist d scratch grouped =
      (let pr := findMarkerNeighbors dist seed d scratch.dropLast
       if 1 < pr.2.length then
         findMarkerGroups dist d pr.2 (grouped ++ [pr.1])
       else if pr.2.length = 1 then
         (grouped ++ [pr.1]) ++ [pr.2]
       else
         grouped ++ [pr.1]) := by
  conv_lhs => rw [findMarkerGroups]
  split
  · rename_i hnone
    rw [hs] at hnone
    exact absurd hnone (by simp)
  · rename_i s hsome
    rw [hs] at hsome
    injection hsome with h
    subst h
    rfl

/-- The groups built by findMarkerGroups use each scratch marker exactly
once: their concatenation is a permutation of the accumulator contents
followed by the scratch list.  Proved by induction on a length bound. -/
lemma findMarkerGroups_flatten_perm (dist : LatLng → LatLng → ℚ) (d : ℚ) :
    ∀ (n : ℕ) (scratch : List CMarker) (grouped : List (List CMarker)),
      scratch.length ≤ n →
      List.Perm (findMarkerGroups dist d scratch grouped).flatten
        (grouped.flatten ++ scratch) := by
  intro n
  induction n with
  | zero =>
    intro scratch grouped h
    have : scratch = [] := List.length_eq_zero.mp (Nat.le_zero.mp h)
    subst this
    rw [findMarkerGroups_eq_nil dist d [] grouped rfl]
    simp
  | succ n ih =>
    intro scratch grouped h
    cases hs : scratch.getLast? with
    | none =>
      rw [findMarkerGroups_eq_nil dist d scratch grouped hs]
      have : scratch = [] := List.getLast?_eq_none_iff.mp hs
      subst this
      simp
    | some seed =>
      rw [findMarkerGroups_eq_cons dist d scratch grouped seed hs]
      have hsc : scratch.dropLast ++ [seed] = scratch :=
        List.dropLast_append_getLast? seed hs
      have hne : scratch ≠ [] := by
        intro hnil
        rw [hnil] at hs
        simp at hs
      have hkey : List.Perm
          ((findMarkerNeighbors dist seed d scratch.dropLast).1 ++
            (findMarkerNeighbors dist seed d scratch.dropLast).2) scratch := by
        refine List.Perm.trans
          (findMarkerNeighbors_perm dist seed d scratch.dropLast) ?_
        refine List.Perm.trans
          (List.perm_append_singleton seed scratch.dropLast).symm ?_
        rw [hsc]
      have hlen2 : (findMarkerNeighbors dist seed d scratch.dropLast).2.length ≤ n := by
        have h2 := List.length_filter_le
          (fun x => ! decide (dist seed.pos x.pos ≤ d)) scratch.dropLast
        have h3 : 0 < scratch.length := List.length_pos.mpr hne
        simp only [findMarkerNeighbors]
        rw [List.length_dropLast] at h2
        omega
      set pr := findMarkerNeighbors dist seed d scratch.dropLast with hpr
      by_cases h1 : 1 < pr.2.length
      · simp only [h1, if_true]
        refine List.Perm.trans (ih pr.2 (grouped ++ [pr.1]) hlen2) ?_
        rw [List.flatten_append]
        simp only [List.flatten_cons, List.flatten_nil, List.append_nil]
        rw [List.append_assoc]
        exact List.Perm.append_left grouped.flatten hkey
      · simp only [h1, if_false]
        by_cases h2 : pr.2.length = 1
        · simp only [h2, if_true]
          rw [List.flatten_append, List.flatten_append]
          simp only [List.flatten_cons, List.flatten_nil, List.append_nil]
          rw [List.append_assoc]
          exact List.Perm.append_left grouped.flatten hkey
        · simp only [h2, if_false]
          have hnil2 : pr.2 = [] := by
            have : pr.2.length = 0 := by omega
            exact List.length_eq_zero.mp this
          rw [List.flatten_append]
          simp only [List.flatten_cons, List.flatten_nil, List.append_nil]
          refine List.Perm.append_left grouped.flatten ?_
          have hk := hkey
          rw [hnil2, List.append_nil] at hk
          exact hk

/-- Every group emitted by findMarkerGroups (beyond the accumulator) has
its seed at the head and every other member within `d` of that seed. -/
lemma findMarkerGroups_good (dist : LatLng → LatLng → ℚ) (d : ℚ) :
    ∀ (n : ℕ) (scratch : List CMarker) (grouped : List (List CMarker)),
      scratch.length ≤ n →
      ∀ g ∈ findMarkerGroups dist d scratch grouped,
        g ∈ grouped ∨
          ∃ s, g.head? = some s ∧ ∀ m ∈ g, m = s ∨ dist s.pos m.pos ≤ d := by
  intro n
  induction n with
  | zero =>
    intro scratch grouped h
    have : scratch = [] := List.length_eq_zero.mp (Nat.le_zero.mp h)
    subst this
    rw [findMarkerGroups_eq_nil dist d [] grouped rfl]
    intro g hg
    exact Or.inl hg
  | succ n ih =>
    intro scratch grouped h
    cases hs : scratch.getLast? with
    | none =>
      rw [findMarkerGroups_eq_nil dist d scratch grouped hs]
      intro g hg
      exact Or.inl hg
    | some seed =>
      rw [findMarkerGroups_eq_cons dist d scratch grouped seed hs]
      have hne : scratch ≠ [] := by
        intro hnil
        rw [hnil] at hs
        simp at hs
      have hlen2 : (findMarkerNeighbors dist seed d scratch.dropLast).2.length ≤ n := by
        have h2 := List.length_filter_le
          (fun x => ! decide (dist seed.pos x.pos ≤ d)) scratch.dropLast
        have h3 : 0 < scratch.length := List.length_pos.mpr hne
        simp only [findMarkerNeighbors]
        rw [List.length_dropLast] at h2
        omega
      have hgood1 : ∃ s,
          (findMarkerNeighbors dist seed d scratch.dropLast).1.head? = some s ∧
          ∀ m ∈ (findMarkerNeighbors dist seed d scratch.dropLast).1,
            m = s ∨ dist s.pos m.pos ≤ d := by
        refine ⟨seed, by simp [findMarkerNeighbors], ?_⟩
        intro m hm
        simp only [findMarkerNeighbors, List.mem_cons, List.mem_reverse,
          List.mem_filter] at hm
        rcases hm with hm | hm
        · exact Or.inl hm
        · exact Or.inr (of_decide_eq_true hm.2)
      set pr := findMarkerNeighbors dist seed d scratch.dropLast with hpr
      by_cases h1 : 1 < pr.2.length
      · simp only [h1, if_true]
        intro g hg
        rcases ih pr.2 (grouped ++ [pr.1]) hlen2 g hg with hmem | hgood
        · rw [List.mem_append] at hmem
          rcases hmem with hmem | hmem
          · exact Or.inl hmem
          · simp only [List.mem_singleton] at hmem
            subst hmem
            exact Or.inr hgood1
        · exact Or.inr hgood
      · simp only [h1, if_false]
        by_cases h2 : pr.2.length = 1
        · simp only [h2, if_true]
          intro g hg
          simp only [List.mem_append, List.mem_singleton] at hg
          rcases hg with (hg | hg) | hg
          · exact Or.inl hg
          · subst hg
            exact Or.inr hgood1
          · subst hg
            obtain ⟨x, hx⟩ := List.length_eq_one.mp h2
            refine Or.inr ⟨x, by simp [hx], ?_⟩
            intro m hm
            rw [hx, List.mem_singleton] at hm
            exact Or.inl hm
        · simp only [h2, if_false]
          intro g hg
          simp only [List.mem_append, List.mem_singleton] at hg
          rcases hg with hg | hg
          · exact Or.inl hg
          · subst hg
            exact Or.inr hgood1

/-- C1: for every non-empty marker list and positive grouping distance d,
the grouping stage of clusterMarkers partitions the visible markers: the
groups' members, concatenated, are a permutation of the visible subset
(each visible marker lands in exactly one group), and every group has a
seed marker (its first member) with every other member within d of it,
so any two members of a group are chained through the seed by pairwise
distances each at most d. -/
theorem cluster_group_partitions_visible (dist : LatLng → LatLng → ℚ)
    (markers : List CMarker) (d : ℚ) (hne : markers ≠ []) (hd : 0 < d) :
    List.Perm ((clusterGroupsJS dist markers d).map FGroup.markers).flatten
        (markers.filter fun m => m.visible)
    ∧ ∀ g ∈ clusterGroupsJS dist markers d,
        ∃ s, g.markers.head? = some s ∧
          ∀ m ∈ g.markers, m = s ∨ dist s.pos m.pos ≤ d := by
  unfold clusterGroupsJS
  by_cases hvis : (markers.filter fun m => m.visible).length ≠ 0
  · rw [if_pos hvis]
    unfold groupJS
    rw [if_pos ⟨hvis, ne_of_gt hd⟩]
    have hperm := findMarkerGroups_flatten_perm dist d
      (markers.filter fun m => m.visible).length
      (markers.filter fun m => m.visible) [] (le_refl _)
    simp only [List.flatten_nil, List.nil_append] at hperm
    have hglen : (findMarkerGroups dist d (markers.filter fun m => m.visible) []).length ≠ 0 := by
      intro h0
      rw [List.length_eq_zero.mp h0] at hperm
      have := hperm.length_eq
      simp only [List.length_flatten, List.map_nil, List.sum_nil] at this
      exact hvis this.symm
    rw [if_pos hglen]
    simp only [Option.getD_some]
    constructor
    · have hmm : ((findMarkerGroups dist d (markers.filter fun m => m.visible) []).map
          formatGroup).map FGroup.markers
          = findMarkerGroups dist d (markers.filter fun m => m.visible) [] := by
        rw [List.map_map]
        exact List.map_id _
      rw [hmm]
      exact hperm
    · intro g hg
      rw [List.mem_map] at hg
      obtain ⟨g0, hg0, hfmt⟩ := hg
      rcases findMarkerGroups_good dist d
          (markers.filter fun m => m.visible).length
          (markers.filter fun m => m.visible) [] (le_refl _) g0 hg0 with hmem | hgood
      · exact absurd hmem (List.not_mem_nil g0)
      · rw [← hfmt]
        exact hgood
  · rw [if_neg hvis]
    rw [not_ne_iff] at hvis
    constructor
    · simp only [List.map_nil, List.flatten_nil]
      rw [List.length_eq_zero.mp hvis]
    · intro g hg
      exact absurd hg (List.not_mem_nil g)

/-- Closed-form instance of cluster_group_partitions_visible: one
visible marker, the constant-zero distance function, and d = 1. -/
theorem cluster_group_partitions_visible_witness :
    ([(⟨1, ⟨0, 0⟩, true⟩ : CMarker)] ≠ [] ∧ (0 : ℚ) < 1) ∧
    (List.Perm
        ((clusterGroupsJS (fun _ _ => 0) [⟨1, ⟨0, 0⟩, true⟩] 1).map
          FGroup.markers).flatten
        ([(⟨1, ⟨0, 0⟩, true⟩ : CMarker)].filter fun m => m.visible)
      ∧ ∀ g ∈ clusterGroupsJS (fun _ _ => 0) [⟨1, ⟨0, 0⟩, true⟩] 1,
          ∃ s, g.markers.head? = some s ∧
            ∀ m ∈ g.markers, m = s ∨ (fun _ _ => (0 : ℚ)) s.pos m.pos ≤ 1) :=
  ⟨⟨by decide, by norm_num⟩,
    cluster_group_partitions_visible (fun _ _ => 0) [⟨1, ⟨0, 0⟩, true⟩] 1
      (by decide) (by norm_num)⟩

/-- C2 (code-bug evidence): Scenario A is unrealizable as claimed.  The
Marker constructor guard `lat && lng` treats the number 0 as falsy, so
marker 1 at (0,0) and marker 2 at (0,0.0001) cannot be constructed —
the caller receives a partially built object, and the "valid lat/lng"
error is logged for a perfectly valid equatorial position — and the
aggregate marker the scenario expects at the centroid (0, 0.00005) is
rejected by the same guard inside clusterMarkers (its
`new Marker(args.lat, ...)` receives latitude 0), whose broken result
then has a null widget marker that addToMap cannot attach.  Only
marker 3 at (10,10) constructs as described. -/
theorem scenarioA_markers_unconstructible :
    (markerNewJS true true true (some 0) (some 0)).1
        = MarkerNewResult.brokenObject ∧
    MarkerInitLog.invalidLatLng ∈
      (markerNewJS true true true (some 0) (some 0)).2 ∧
    (markerNewJS true true true (some 0) (some (1/10000))).1
        = MarkerNewResult.brokenObject ∧
    (markerNewJS true true true (some 0) (some (1/20000))).1
        = MarkerNewResult.brokenObject ∧
    (markerNewJS true true true (some 10) (some 10)).1
        = MarkerNewResult.marker ⟨10, 10⟩ := by
  refine ⟨?_, ?_, ?_, ?_, ?_⟩ <;>
    norm_num [markerNewJS, truthyNum, markerErrorsInit]

/-- C3 counterexample: with the widget present at zoom 8, zoom(0) —
level 0 is inside the claimed accepted range 0..21 — does not set the
widget zoom (the number-truthiness guard rejects 0); zoom(22) — outside
0..21 — is accepted and sets the widget zoom; and zoom(25), which the
claim says logs a range error, instead throws a TypeError out of
errors.zoom before any logging (zoom unchanged).  Each conjunct
contradicts the claim. -/
theorem zoom_claim_counterexample :
    (zoomJS ⟨true, 8⟩ 0).1.widgetZoom = 8 ∧
    (zoomJS ⟨true, 8⟩ 22).1.widgetZoom = 22 ∧
    (zoomJS ⟨true, 8⟩ 25).2 = Except.error () ∧
    (zoomJS ⟨true, 8⟩ 25).1.widgetZoom = 8 := by
  refine ⟨?_, ?_, ?_, ?_⟩ <;> rfl

/-- C3 amended: for a map whose widget exists, zoom(level) sets the
widget zoom exactly for levels 1..22 (nothing logged or thrown); level
0 and every level below 0 or above 22 (for example 25) are rejected
with the widget zoom unchanged — but the rejection path throws a
TypeError from errors.zoom (whose `this` is the errors object, making
`this.state` undefined) before logging anything. -/
theorem zoom_amended (st : ZoomState) (z : ℤ) (hw : st.widget = true) :
    (1 ≤ z ∧ z ≤ 22 →
      zoomJS st z = ({ st with widgetZoom := z }, Except.ok [])) ∧
    (z = 0 ∨ z < 0 ∨ 22 < z →
      zoomJS st z = (st, Except.error ())) := by
  constructor
  · intro h
    rw [zoomJS, if_pos ⟨hw, by omega, by omega, by omega⟩]
  · intro h
    rw [zoomJS, if_neg (by rintro ⟨-, h2, h3, h4⟩; omega)]
    rfl

/-- Closed-form instance of zoom_amended: zoom(25) on a widget at zoom
8 leaves the zoom at 8 and throws the TypeError. -/
theorem zoom_amended_witness :
    (⟨true, 8⟩ : ZoomState).widget = true ∧
    ((25 : ℤ) = 0 ∨ (25 : ℤ) < 0 ∨ 22 < (25 : ℤ)) ∧
    zoomJS ⟨true, 8⟩ 25 = (⟨true, 8⟩, Except.error ()) :=
  ⟨rfl, by norm_num, (zoom_amended ⟨true, 8⟩ 25 rfl).2 (by norm_num)⟩

/-- C4: the removal loop never inspects index 0.  With the authoritative
set [5], removing marker 5 (the element at index 0) returns false and
leaves the set unchanged, contradicting the claim that a member at any
index is removed with result true; likewise 5 at index 0 of [5, 9]
survives, while 9 at index 1 is removed as claimed.  A marker not in
the set ([5] and target 6) yields false with the set unchanged. -/
theorem removeMarker_misses_index_zero :
    removeMarkerJS [5] 5 = (false, [5]) ∧
    removeMarkerJS [5, 9] 5 = (false, [5, 9]) ∧
    removeMarkerJS [5, 9] 9 = (true, [5]) ∧
    removeMarkerJS [5] 6 = (false, [5]) := by decide

/-- C5: addMarkers([]) does not leave the cluster state unchanged: the
`markers.length` truthiness check routes the empty array to the
single-marker else branch, which pushes the empty array itself onto the
master marker list (the clusterMarkers pass that follows then calls
isVisible on a value that is not a Marker).  removeMarkers([]) does
leave the master list unchanged. -/
theorem addMarkers_empty_corrupts_master :
    clusterAddMarkersJS [JVal.marker 1] (JVal.arr [])
        = [JVal.marker 1, JVal.arr []] ∧
    clusterAddMarkersJS [JVal.marker 1] (JVal.arr []) ≠ [JVal.marker 1] ∧
    clusterRemoveMarkersJS true [JVal.marker 1, JVal.marker 2] []
        = [JVal.marker 1, JVal.marker 2] := by decide

/-- C6: with one visible marker whose infobox is open, fitBounds does
set state.fittingBounds before invoking the widget fit (first
conjunct), but the zoom listener consults the instance property
fittingBounds — a different, never-set field — so the zoom event
triggered by the programmatic fit still closes the popup (second
conjunct), contrary to the claim. -/
theorem fitBounds_flag_not_consulted_by_zoom :
    (fitBoundsJS ⟨[⟨true, true⟩], false, false⟩).stateFittingBounds = true ∧
    (zoomChangedHandlerJS (fitBoundsJS ⟨[⟨true, true⟩], false, false⟩)).markers
        = [⟨true, false⟩] := by decide

/-- C7: hide() then show() restores the widget-level attachment to the
map recorded in attachedMap, sets visible = true, and leaves
attachedMap intact; for a marker never attached, show() changes
nothing. -/
theorem hide_show_roundtrip (m : VMarker) :
    (∀ mp, m.attachedMap = some mp →
      showJS (hideJS m) = ⟨some mp, some mp, true⟩) ∧
    (m.attachedMap = none → showJS m = m) := by
  constructor
  · intro mp h
    simp [hideJS, showJS, h]
  · intro h
    simp [showJS, h]

/-- Closed-form instance of hide_show_roundtrip for an attached and a
never-attached marker. -/
theorem hide_show_roundtrip_witness :
    ((⟨some 7, some 7, true⟩ : VMarker).attachedMap = some 7 ∧
      showJS (hideJS ⟨some 7, some 7, true⟩) = ⟨some 7, some 7, true⟩) ∧
    ((⟨none, none, true⟩ : VMarker).attachedMap = none ∧
      showJS ⟨none, none, true⟩ = ⟨none, none, true⟩) :=
  ⟨⟨rfl, (hide_show_roundtrip ⟨some 7, some 7, true⟩).1 7 rfl⟩,
    ⟨rfl, (hide_show_roundtrip ⟨none, none, true⟩).2 rfl⟩⟩

/-- C8 (code-bug evidence): constructing a Marker with a missing
latitude logs the invalid-position error — reported, not thrown, as
claimed — but the caller of `new Marker(...)` receives the partially
built object, never the null "no marker" sentinel that the claim and
the body's own `return null` promise, so checking for the sentinel
cannot distinguish failure from success.  A failed
`new Cluster(...)` behaves the same way. -/
theorem marker_new_yields_broken_object :
    ((markerNewJS true true true none (some 5)).1
        = MarkerNewResult.brokenObject ∧
      MarkerInitLog.invalidLatLng ∈
        (markerNewJS true true true none (some 5)).2) ∧
    clusterNewJS false = (ClusterNewResult.brokenObject, true) := by
  refine ⟨⟨?_, ?_⟩, by decide⟩ <;>
    norm_num [markerNewJS, truthyNum, markerErrorsInit]

/-- lookup after a JS property assignment of the same key. -/
lemma lookup_setKey (t : List (ℤ × ℚ)) (k : ℤ) (v : ℚ) :
    (setKey t k v).lookup k = some v := by
  induction t with
  | nil => simp [setKey, List.lookup]
  | cons hd tl ih =>
    obtain ⟨k0, v0⟩ := hd
    by_cases hk : k0 = k
    · subst hk
      simp [setKey, List.lookup]
    · rw [setKey, if_neg hk]
      rw [List.lookup]
      have : (k == k0) = false := by
        simp [Ne.symm hk]
      rw [this]
      exact ih

/-- C9: the zoom→distance policy object lives on the shared
Cluster.prototype (the constructor deep-copies only state and events),
so rolling a mapping in through any instance i changes the grouping
distance any other instance j subsequently computes: after
setClusterZoomMapping({z: v}) via i, instance j resolves grouping
distance v at zoom z (for truthy v). -/
theorem cluster_mapping_shared (sys : ClusterSystem) (i j : ℕ) (z : ℤ)
    (v : ℚ) (hv : v ≠ 0) :
    instGetGroupingDistance (instSetClusterZoomMapping sys i [(z, v)]) j z = v := by
  rw [instSetClusterZoomMapping, instGetGroupingDistance,
    setClusterZoomMappingJS]
  rw [if_pos (by simp)]
  rw [getGroupingDistanceJS]
  simp only [List.foldl_cons, List.foldl_nil]
  rw [lookup_setKey]
  simp [hv]

/-- Closed-form instance of cluster_mapping_shared: two freshly built
clusters over the shipped default config; instance 0 sets zoom 8 to
123, and instance 1 then computes a grouping distance of 123 (where the
shipped config said 6000). -/
theorem cluster_mapping_shared_witness :
    (123 : ℚ) ≠ 0 ∧
    instGetGroupingDistance ⟨defaultClusterMapping, [⟨[]⟩, ⟨[]⟩]⟩ 1 8 = 6000 ∧
    instGetGroupingDistance
      (instSetClusterZoomMapping ⟨defaultClusterMapping, [⟨[]⟩, ⟨[]⟩]⟩ 0
        [(8, 123)]) 1 8 = 123 :=
  ⟨by norm_num, by decide,
    cluster_mapping_shared ⟨defaultClusterMapping, [⟨[]⟩, ⟨[]⟩]⟩ 0 1 8 123
      (by norm_num)⟩

/-- C10: Marker.remove() detaches the widget marker and nulls the
marker's attachedMap back-reference, but never removes the marker from
the owning map's authoritative state.markers — its bookkeeping guard
reads map.markers, a property that does not exist; consequently
Cluster.clearMarkers, which removes display markers via remove(),
leaves the map's tracked marker set exactly as it was while emptying
currentMarkers. -/
theorem marker_remove_skips_map_bookkeeping (g : GMapRemState) (m : RMarker)
    (st : ClearState) :
    (markerRemoveJS g m).1 = g ∧
    (markerRemoveJS g m).2.attachedMap = false ∧
    (markerRemoveJS g m).2.widgetMap = false ∧
    (clusterClearMarkersJS st).gmap = st.gmap ∧
    (st.mapSet = true ∧ st.currentMarkers ≠ [] →
      (clusterClearMarkersJS st).currentMarkers = []) := by
  have hfix : ∀ (l : List RMarker) (g0 : GMapRemState),
      l.foldl (fun g1 m1 => (markerRemoveJS g1 m1).1) g0 = g0 := by
    intro l
    induction l with
    | nil => intro g0; rfl
    | cons hd tl ih =>
      intro g0
      rw [List.foldl_cons]
      rw [show (markerRemoveJS g0 hd).1 = g0 by
        rw [markerRemoveJS]
        simp [googleMapMarkersProp]]
      exact ih g0
  refine ⟨?_, rfl, rfl, ?_, ?_⟩
  · rw [markerRemoveJS]
    simp [googleMapMarkersProp]
  · rw [clusterClearMarkersJS]
    by_cases hc : st.mapSet = true ∧ st.currentMarkers ≠ []
    · rw [if_pos hc]
      exact hfix st.currentMarkers st.gmap
    · rw [if_neg hc]
  · intro hc
    rw [clusterClearMarkersJS, if_pos hc]

/-- Closed-form instance of marker_remove_skips_map_bookkeeping: a map
tracking markers 1 and 2, marker 1 removed via clearMarkers of a
cluster displaying it; the map still tracks both. -/
theorem marker_remove_skips_map_bookkeeping_witness :
    ((⟨⟨[1, 2]⟩, ⟨1, true, true⟩, ⟨true, [⟨1, true, true⟩], ⟨[1, 2]⟩⟩⟩ :
        GMapRemState × RMarker × ClearState).2.2.mapSet = true ∧
      ([(⟨1, true, true⟩ : RMarker)] : List RMarker) ≠ []) ∧
    ((markerRemoveJS ⟨[1, 2]⟩ ⟨1, true, true⟩).1 = ⟨[1, 2]⟩ ∧
      (clusterClearMarkersJS ⟨true, [⟨1, true, true⟩], ⟨[1, 2]⟩⟩).gmap = ⟨[1, 2]⟩ ∧
      (clusterClearMarkersJS ⟨true, [⟨1, true, true⟩], ⟨[1, 2]⟩⟩).currentMarkers = []) :=
  ⟨⟨rfl, by decide⟩,
    ⟨(marker_remove_skips_map_bookkeeping ⟨[1, 2]⟩ ⟨1, true, true⟩
        ⟨true, [⟨1, true, true⟩], ⟨[1, 2]⟩⟩).1,
      (marker_remove_skips_map_bookkeeping ⟨[1, 2]⟩ ⟨1, true, true⟩
        ⟨true, [⟨1, true, true⟩], ⟨[1, 2]⟩⟩).2.2.2.1,
      (marker_remove_skips_map_bookkeeping ⟨[1, 2]⟩ ⟨1, true, true⟩
        ⟨true, [⟨1, true, true⟩], ⟨[1, 2]⟩⟩).2.2.2.2 ⟨rfl, by decide⟩⟩⟩

end Mapulous
